import Mathlib

/-!
CDK templates: construct creation traces.

The Go templates build a fixed topology of cloud resources by calling the
construct SDK in sequence.  Each template is embedded as a program in a state
monad whose state holds the SDK calls issued so far; read in program order
they form the *creation trace*.  A construct is identified by the position of
its creating call in that trace, so "created before" is the order of positions.

Only the calls written in the template sources are recorded; resources that
the SDK synthesises on its own behind a call are not part of the trace.

The SDK rejects some calls: it panics and the template stops.  A rejected call
is the last one of the trace, and the run reports the rejection.  The
rejections modelled are the ones the templates run into: a scope that is a Go
struct embedding a construct instead of the construct itself, a nil scope, a
second child with the same id under one scope, a resource outside any stack, a
VPC with two subnet groups of one name, a selection of a subnet type the VPC
does not configure, a target group without port or protocol, and a DNS record
with more than one routing policy.  Other validations of the SDK are not
modelled.
-/

namespace Templates

/-! ## Data model -/

/-- Identity of a construct: the position of its creating call in the trace. -/
abbrev Handle := Nat

/-- Output attributes of a construct (deploy-time values read through getters). -/
inductive Attr
  | Arn
  | RestApiId
  | FunctionName
  | SecurityGroupId
  | VpcCidrBlock
  | PrivateSubnetId (i : Nat)
  | DeploymentStage
  deriving DecidableEq, Repr

/-- Constructor or factory of the SDK that registered a construct in the tree. -/
inductive Kind
  | App
  | Stack
  | Construct
  | Topic
  | Role
  | Function
  | Policy
  | RestApi
  | Resource
  | Method
  | UsagePlan
  | ApiKey
  | CertificateImport
  | DomainName
  | CfnPermission
  | HostedZone
  | HostedZoneImport
  | ARecord
  | CnameRecord
  | CfnHealthCheck
  | Vpc
  | SecurityGroup
  | SecurityGroupImport
  | CfnCacheCluster
  | CfnSubnetGroup
  | ApplicationLoadBalancer
  | AutoScalingGroup
  | ApplicationTargetGroup
  | ApplicationListener
  | DatabaseInstance
  | GatewayVpcEndpoint
  | InterfaceVpcEndpoint
  deriving DecidableEq, Repr

/-- Mutating methods called on an already created construct. -/
inductive Method
  | GrantPublish
  | AttachInlinePolicy
  | AddToPolicy
  | AddManagedPolicy
  | AddDependsOn
  | AddIngressRule
  | AddApiKey
  | AddApiStage
  | AddBasePathMapping
  | SetTag
  | AllowFrom
  | Synth
  deriving DecidableEq, Repr

structure Environment where
  Account : String
  Region : String
  deriving DecidableEq, Repr

inductive Effect
  | ALLOW
  | DENY
  deriving DecidableEq, Repr

/-- Fields of `awsiam.PolicyStatementProps` set by the templates. -/
structure PolicyStatement where
  Effect : Option Effect
  Principals : List String
  Actions : List String
  Resources : List String
  deriving DecidableEq, Repr

inductive SubnetType
  | PUBLIC
  | PRIVATE_WITH_EGRESS
  | PRIVATE_ISOLATED
  deriving DecidableEq, Repr

structure SubnetConfiguration where
  CidrMask : Nat
  Name : String
  SubnetType : SubnetType
  deriving DecidableEq, Repr

/-- A `MethodResponse`: status code and declared response parameters. -/
structure MethodResponse where
  StatusCode : String
  ResponseParameters : List (String × Bool)
  deriving DecidableEq, Repr

/-- An `IntegrationResponse`: status code and mapped response parameters. -/
structure IntegrationResponse where
  StatusCode : String
  ResponseParameters : List (String × String)
  deriving DecidableEq, Repr

/-- Fields of `awsapigateway.IntegrationOptions` set by the templates. -/
structure IntegrationOptions where
  IntegrationResponses : List IntegrationResponse
  PassthroughBehavior : String
  RequestTemplates : List (String × String)
  deriving DecidableEq, Repr

inductive Integration
  | lambda (handler : Handle)
  | mock (options : IntegrationOptions)
  deriving DecidableEq, Repr

/-- Value of one property (or argument) passed to an SDK call. -/
inductive PropVal
  | str (s : String)
  | strs (l : List String)
  | num (n : Nat)
  | bool (b : Bool)
  | const (name : String)
  | env (e : Option Environment)
  | principal (service : String)
  | asset (path : String)
  | alias (h : Handle)
  | strMap (m : List (String × String))
  | construct (h : Handle)
  | constructs (hs : List Handle)
  | attr (h : Handle) (a : Attr)
  | attrs (l : List (Handle × Attr))
  | statement (s : PolicyStatement)
  | statements (l : List PolicyStatement)
  | subnetConfiguration (l : List SubnetConfiguration)
  | subnetSelection (t : SubnetType)
  | methodResponses (l : List MethodResponse)
  | integration (i : Integration)
  deriving DecidableEq, Repr

abbrev Props := List (String × PropVal)

/-- One SDK call of a template. -/
inductive Event
  | declare (kind : Kind) (scope : Option Handle) (id : String) (props : Props)
  | call (method : Method) (target : Handle) (args : Props)
  deriving DecidableEq, Repr

abbrev Trace := List Event

/-- A construct object created by the SDK and held in a Go variable: its
position in the trace and the stack that encloses it, if any. -/
structure Construct where
  node : Handle
  stack : Option Handle
  deriving DecidableEq, Repr

/-- The Go value passed where the SDK expects a scope. -/
inductive Scope
  | nil
  | sdk (c : Construct)
  | embedding (c : Construct)
  deriving DecidableEq, Repr

/-- The construct behind a scope value. -/
def Scope.handle? : Scope → Option Handle
  | Scope.nil => none
  | Scope.sdk c => some c.node
  | Scope.embedding c => some c.node

/-- Why the SDK rejects a call. -/
inductive Rejection
  | nilScope
  | embeddingScope
  | duplicateId
  | noStack
  | duplicateSubnetGroup
  | subnetTypeNotConfigured
  | portOrProtocolRequired
  | routingPoliciesConflict
  deriving DecidableEq, Repr

/-- State of the construct tree while a template runs: the number of SDK
calls issued so far and those calls, newest first. -/
structure Tree where
  next : Nat
  issued : List Event

/-- A template step: from the tree to a value or a rejection, and the tree. -/
def M (α : Type) : Type := Tree → Except Rejection α × Tree

def M.pure {α : Type} (a : α) : M α := fun t => (Except.ok a, t)

/-- Sequencing: a rejection ends the run. -/
def M.bind {α β : Type} (m : M α) (f : α → M β) : M β := fun t =>
  match m t with
  | (Except.ok a, t') => f a t'
  | (Except.error r, t') => (Except.error r, t')

instance instMonadM : Monad M where
  pure := M.pure
  bind := M.bind

def emptyTree : Tree := { next := 0, issued := [] }

/-- Trace of a template run from an empty construct tree: the calls issued, in
order; when the run is rejected the rejected call is the last one. -/
def exec {α : Type} (m : M α) : Trace := (m emptyTree).2.issued.reverse

/-- Rejection that ends a template run from an empty construct tree, if any. -/
def rejection {α : Type} (m : M α) : Option Rejection :=
  match (m emptyTree).1 with
  | Except.ok _ => none
  | Except.error r => some r

/-- Value returned by a template run from an empty construct tree, if it returns. -/
def result {α : Type} (m : M α) : Option α :=
  match (m emptyTree).1 with
  | Except.ok a => some a
  | Except.error _ => none

/-! ## SDK calls -/

/-- Kinds that are resources: the SDK creates them only inside a stack. -/
def Kind.needsStack : Kind → Bool
  | Kind.App => false
  | Kind.Stack => false
  | Kind.Construct => false
  | _ => true

/-- The event declares a child `id` under the construct `scope`. -/
def Event.declaresUnder (scope : Handle) (id : String) : Event → Bool
  | Event.declare _ (some s) id' _ => decide (s = scope) && decide (id' = id)
  | _ => false

def PropVal.subnetNames : PropVal → List String
  | PropVal.subnetConfiguration l => l.map (fun c => c.Name)
  | _ => []

def PropVal.subnetTypes : PropVal → List SubnetType
  | PropVal.subnetConfiguration l => l.map (fun c => c.SubnetType)
  | _ => []

/-- Subnet types configured for the VPC created at position `vpc`. -/
def configuredSubnetTypes (t : Trace) (vpc : Handle) : List SubnetType :=
  match t[vpc]? with
  | some (Event.declare Kind.Vpc _ _ props) => props.flatMap (fun p => p.2.subnetTypes)
  | _ => []

/-- Routing policies a DNS record is given: the properties among geolocation,
region, weight and multi-value answer that are set. -/
def routingPolicies (props : Props) : List String :=
  (props.map Prod.fst).filter
    (fun k => decide (k ∈ ["GeoLocation", "Region", "Weight", "MultiValueAnswer"]))

/-- Kinds that are DNS record sets. -/
def Kind.isRecordSet : Kind → Bool
  | Kind.ARecord => true
  | Kind.CnameRecord => true
  | _ => false

/-- The SDK's verdict on the creation of a construct (library behaviour, not
part of the templates): `none` when it accepts, the reason when it panics. -/
def rejects (t : Tree) (kind : Kind) (scope : Scope) (id : String) (props : Props) :
    Option Rejection :=
  match scope with
  | Scope.embedding _ => some Rejection.embeddingScope
  | Scope.nil => if kind = Kind.App then none else some Rejection.nilScope
  | Scope.sdk s =>
    if t.issued.any (Event.declaresUnder s.node id) then some Rejection.duplicateId
    else if kind.needsStack && s.stack.isNone then some Rejection.noStack
    else if ¬ (props.flatMap (fun p => p.2.subnetNames)).Nodup then
      some Rejection.duplicateSubnetGroup
    else if kind = Kind.ApplicationTargetGroup ∧ (props.lookup "Port").isNone then
      some Rejection.portOrProtocolRequired
    else if kind.isRecordSet && decide (1 < (routingPolicies props).length) then
      some Rejection.routingPoliciesConflict
    else
      match props.lookup "Vpc", props.lookup "VpcSubnets" with
      | some (PropVal.construct vpc), some (PropVal.subnetSelection ty) =>
        if ty ∈ configuredSubnetTypes t.issued.reverse vpc then none
        else some Rejection.subnetTypeNotConfigured
      | _, _ => none

/-- Create a construct `id` under `scope`.  The call is recorded; when the SDK
rejects it the run ends there.  The enclosing stack (what `Stack()` answers)
is the construct itself for a stack and the scope's stack otherwise. -/
def declare (kind : Kind) (scope : Scope) (id : String) (props : Props) : M Construct :=
  fun t =>
    let issued : Tree :=
      { next := t.next + 1, issued := Event.declare kind scope.handle? id props :: t.issued }
    match rejects t kind scope id props with
    | some r => (Except.error r, issued)
    | none =>
      let stack := match kind, scope with
        | Kind.Stack, _ => some t.next
        | _, Scope.sdk s => s.stack
        | _, _ => none
      (Except.ok { node := t.next, stack := stack }, issued)

/-- Call a mutating method on an existing construct. -/
def call (method : Method) (target : Construct) (args : Props) : M Unit := fun t =>
  (Except.ok (),
   { next := t.next + 1, issued := Event.call method target.node args :: t.issued })

/-- Accessor `Stack()`: the stack object enclosing a construct; the SDK panics
when there is none. -/
def Construct.Stack (c : Construct) : M Construct := fun t =>
  match c.stack with
  | some s => (Except.ok { node := s, stack := some s }, t)
  | none => (Except.error Rejection.noStack, t)

/-- Values that the Go runtime and the SDK supply while a template runs. -/
structure Runtime where
  /-- String behind `*awscdk.Aws_REGION()`. -/
  region : String
  /-- String behind `*awscdk.Aws_ACCOUNT_ID()`. -/
  accountId : String
  /-- Address held by the `*string` that `FunctionName()` returns. -/
  functionNameAddr : Nat
  /-- Number of private subnets the SDK lays out for a VPC. -/
  privateSubnets : Nat

/-- Go `fmt` rendering of a `*string` operand under the verb `%s`: the verb
does not apply to a pointer, so the operand is reported with its type and its
address, or `<nil>` for the nil pointer (address 0). -/
def sprintfPtrS (addr : Nat) : String :=
  if addr = 0 then "%!s(*string=<nil>)"
  else "%!s(*string=0x" ++ String.mk (Nat.toDigits 16 addr) ++ ")"

/-- Go `filepath.Dir` on a slash-separated relative path without redundant
elements: everything before the last separator, `.` when there is none. -/
def filepathDir (path : String) : String :=
  match (path.splitOn "/").dropLast with
  | [] => "."
  | parts => "/".intercalate parts

/-! ## dev-api-gateway.go -/

/-- Fields of `awscdk.StackProps` that the templates set or the stack's tag
manager reads; the other fields are left unset. -/
structure StackProps where
  Env : Option Environment
  Tags : List (String × String)
  deriving DecidableEq, Repr

def StackProps.toProps (p : StackProps) : Props :=
  [("Env", PropVal.env p.Env), ("Tags", PropVal.strMap p.Tags)]

structure PropsAPIResources where
  StackProps : StackProps
  DomainName : String
  Environment : String
  SampleCodeBucket : String
  CertificateArn : String
  HostedZoneId : String
  ApiDomainName : String
  IsProduction : Bool
  deriving DecidableEq, Repr

/-- The Go struct `APIResources`, which embeds the stack made by `NewStack`. -/
structure APIResources where
  Stack : Construct
  deriving DecidableEq, Repr

/-- The receiver `self` passed where the SDK expects a scope: the Go struct,
not the stack it embeds. -/
def APIResources.scope (self : APIResources) : Scope := Scope.embedding self.Stack

structure Config where
  project : String
  author : String
  deriving DecidableEq, Repr

def config : Config :=
  { project := "YourProjectName"
    author := "YourName" }

/-- The `awslambda.IFunction` object: its node and what `Role()` answers. -/
structure IFunction extends Construct where
  Role : Construct
  deriving DecidableEq, Repr

/-- The `awsapigateway.IRestApi` object: its node and what `RestApiName()` answers. -/
structure IRestApi extends Construct where
  RestApiName : String
  deriving DecidableEq, Repr

/-- Accessor `Root()`: the root resource of a REST API lives in the API's node. -/
def IRestApi.Root (api : IRestApi) : Construct := api.toConstruct

/-- Accessor `LatestVersion()`: the `$LATEST` view lives in the function's node. -/
def IFunction.LatestVersion (f : IFunction) : Construct := f.toConstruct

structure APIObject where
  api : IRestApi
  ApiGatewayDomainName : Construct
  deriving DecidableEq, Repr

/-! Logical ids computed at the ten call sites that declare under `self`. -/

def topicId (domainName : String) : String := "topic" ++ domainName

def roleId (props : PropsAPIResources) : String := props.DomainName ++ "Role"

def functionId (domainName : String) : String := "lambda" ++ domainName

def policyId : String := "userpool-policy"

def restApiId (props : PropsAPIResources) : String := props.ApiDomainName

def certificateId (props : PropsAPIResources) : String := props.ApiDomainName ++ "Certificate"

def domainNameId (props : PropsAPIResources) : String :=
  props.ApiDomainName ++ "ApiGatewayDomainName"

def permissionId (domainName : String) : String := domainName ++ "Permission"

def hostedZoneImportId (restApiName : String) : String := "HZA" ++ restApiName

def aRecordId (restApiName : String) : String := "ARecord" ++ restApiName

def addTags (_self : APIResources) (resource : Construct) (props : PropsAPIResources) :
    M Unit := do
  call Method.SetTag resource
    [("key", PropVal.str "environment"), ("value", PropVal.str props.Environment),
     ("priority", PropVal.num 1), ("applyToLaunchedInstances", PropVal.bool true)]
  call Method.SetTag resource
    [("key", PropVal.str "project"), ("value", PropVal.str config.project),
     ("priority", PropVal.num 2), ("applyToLaunchedInstances", PropVal.bool true)]
  call Method.SetTag resource
    [("key", PropVal.str "author"), ("value", PropVal.str config.author),
     ("priority", PropVal.num 3), ("applyToLaunchedInstances", PropVal.bool true)]
  call Method.SetTag resource
    [("key", PropVal.str "site"), ("value", PropVal.str props.ApiDomainName),
     ("priority", PropVal.num 4), ("applyToLaunchedInstances", PropVal.bool true)]

def createLambdaRole (self : APIResources) (deadLetterTopic : Construct)
    (props : PropsAPIResources) : M Construct := do
  let lambdaFunctionRole := props.Environment ++ props.DomainName ++ "Lambda Function Role"
  let lambdaFunctionRoleName := props.Environment ++ config.project ++ "LambdaFunctionRole"
  let lambdaRole ← declare Kind.Role self.scope (roleId props)
    [("AssumedBy", PropVal.principal "lambda.amazonaws.com"),
     ("Description", PropVal.str lambdaFunctionRole),
     ("RoleName", PropVal.str lambdaFunctionRoleName)]
  call Method.GrantPublish deadLetterTopic [("grantee", PropVal.construct lambdaRole.node)]
  return lambdaRole

def mockOptionsIntegration (props : PropsAPIResources) : Integration :=
  Integration.mock
    { IntegrationResponses :=
        [{ StatusCode := "200"
           ResponseParameters :=
             [("method.response.header.Access-Control-Allow-Headers",
                "'Content-Type,X-Amz-Date,Authorization,X-Api-Key,X-Amz-Security-Token'"),
              ("method.response.header.Access-Control-Allow-Methods", "'GET,POST,OPTIONS'"),
              ("method.response.header.Access-Control-Allow-Origin",
                "'https://" ++ props.DomainName ++ "'")] }]
      PassthroughBehavior := "WHEN_NO_MATCH"
      RequestTemplates := [("application/json", "\x7b\"statusCode\": 200\x7d")] }

/-- The `MethodOptions` of the OPTIONS method together with its integration:
the arguments of the second `AddMethod` call of `addAPIResources`. -/
def optionsMethodProps (props : PropsAPIResources) : Props :=
  [("integration", PropVal.integration (mockOptionsIntegration props)),
   ("MethodResponses", PropVal.methodResponses
      [{ StatusCode := "200"
         ResponseParameters :=
           [("method.response.header.Access-Control-Allow-Headers", true),
            ("method.response.header.Access-Control-Allow-Methods", true),
            ("method.response.header.Access-Control-Allow-Origin", true)] }])]

/-- The `FunctionName` given to `NewFunction`. -/
def functionName (props : PropsAPIResources) : String :=
  props.Environment ++ "-lambda-save-resources"

/-- The policy statement built for the function's log group. -/
def createLogGroupStatement (rt : Runtime) : PolicyStatement :=
  let logGroupArn := "arn:aws:logs:" ++ rt.region ++ ":" ++ rt.accountId ++
    ":log-group:/aws/lambda/" ++ sprintfPtrS rt.functionNameAddr ++ ":*"
  { Effect := some Effect.ALLOW
    Principals := []
    Actions := ["logs:CreateLogGroup", "logs:CreateLogStream", "logs:PutLogEvents"]
    Resources := [logGroupArn] }

/-- The `PolicyProps` of the inline policy `userpool-policy`. -/
def userpoolPolicyProps (rt : Runtime) : Props :=
  [("Statements", PropVal.statements [createLogGroupStatement rt])]

def createLambdaFunctionAndRole (rt : Runtime) (self : APIResources) (domainName : String)
    (props : PropsAPIResources) (golangCodeAsset : String) : M (IFunction × Construct) := do
  let bucketName := domainName ++ "-archive"
  let deadLetterTopic ← declare Kind.Topic self.scope (topicId domainName)
    [("DisplayName", PropVal.str (props.Environment ++ config.project ++ "DeadLetterTopic")),
     ("TopicName",
        PropVal.str (props.Environment ++ "-" ++ config.project ++ "-dead-letter-topic"))]
  let lambdaRole ← createLambdaRole self deadLetterTopic props
  let seconds := 10
  let dir := filepathDir golangCodeAsset
  let fn ← declare Kind.Function self.scope (functionId domainName)
    [("Runtime", PropVal.const "PROVIDED_AL2"),
     ("Handler", PropVal.str "bootstrap"),
     ("Code", PropVal.asset dir),
     ("MemorySize", PropVal.num 512),
     ("Timeout", PropVal.num seconds),
     ("Environment", PropVal.strMap [("S3_BUCKET_NAME", bucketName)]),
     ("Role", PropVal.construct lambdaRole.node),
     ("RetryAttempts", PropVal.num 0),
     ("Description", PropVal.str (props.Environment ++ " Lambda Function to Save the Resources")),
     ("FunctionName", PropVal.str (functionName props)),
     ("DeadLetterTopic", PropVal.construct deadLetterTopic.node)]
  let lambdaFunction : IFunction := { toConstruct := fn, Role := lambdaRole }
  let policy ← declare Kind.Policy self.scope policyId (userpoolPolicyProps rt)
  call Method.AttachInlinePolicy lambdaFunction.Role [("policy", PropVal.construct policy.node)]
  return (lambdaFunction, lambdaRole)

def addAPIResources (self : APIResources) (props : PropsAPIResources)
    (lambdaFunction : IFunction) : M APIObject := do
  let apiNode ← declare Kind.RestApi self.scope (restApiId props)
    [("RestApiName", PropVal.str props.ApiDomainName),
     ("Description", PropVal.str (props.ApiDomainName ++ " API Gateway for the " ++
        props.Environment ++ " environment"))]
  let api : IRestApi := { toConstruct := apiNode, RestApiName := props.ApiDomainName }
  let saveResource ← declare Kind.Resource (Scope.sdk api.Root) "save" []
  let _ ← declare Kind.Method (Scope.sdk saveResource) "POST"
    [("integration", PropVal.integration (Integration.lambda lambdaFunction.node)),
     ("ApiKeyRequired", PropVal.bool true)]
  let _ ← declare Kind.Method (Scope.sdk saveResource) "OPTIONS" (optionsMethodProps props)
  let usagePlan ← declare Kind.UsagePlan (Scope.sdk api.toConstruct) "MyUsagePlan"
    [("Name", PropVal.str (props.DomainName ++ "UsagePlan")),
     ("Description", PropVal.str (props.DomainName ++ " Usage plan for My API")),
     ("Throttle.RateLimit", PropVal.num 2000),
     ("Throttle.BurstLimit", PropVal.num 1000),
     ("Quota.Limit", PropVal.num 100000),
     ("Quota.Period", PropVal.const "MONTH")]
  let apiKey ← declare Kind.ApiKey (Scope.sdk api.toConstruct) "MyApiKey"
    [("ApiKeyName", PropVal.str (props.DomainName ++ "ApiKey")),
     ("Description", PropVal.str (props.DomainName ++ " API Key for My API"))]
  call Method.AddApiKey usagePlan [("apiKey", PropVal.construct apiKey.node)]
  call Method.AddApiStage usagePlan
    [("Api", PropVal.construct api.node), ("Stage", PropVal.attr api.node Attr.DeploymentStage)]
  let certificate ← declare Kind.CertificateImport self.scope (certificateId props)
    [("certificateArn", PropVal.str props.CertificateArn)]
  let apiGatewayDomainName ← declare Kind.DomainName self.scope (domainNameId props)
    [("DomainName", PropVal.str props.ApiDomainName),
     ("Certificate", PropVal.construct certificate.node),
     ("EndpointType", PropVal.const "EDGE")]
  call Method.AddBasePathMapping apiGatewayDomainName [("targetApi", PropVal.construct api.node)]
  return { api := api, ApiGatewayDomainName := apiGatewayDomainName }

def createRecordSetsInRoute53 (self : APIResources) (props : PropsAPIResources)
    (domainName : String) (apiObject : APIObject) : M Unit := do
  let hostedZone ← declare Kind.HostedZoneImport self.scope
    (hostedZoneImportId apiObject.api.RestApiName)
    [("HostedZoneId", PropVal.str props.HostedZoneId),
     ("ZoneName", PropVal.str props.ApiDomainName)]
  let apiGatewayDomainTarget := PropVal.alias apiObject.ApiGatewayDomainName.node
  let _ ← declare Kind.ARecord self.scope (aRecordId apiObject.api.RestApiName)
    [("Zone", PropVal.construct hostedZone.node),
     ("RecordName", PropVal.str props.ApiDomainName),
     ("Target", apiGatewayDomainTarget),
     ("Comment", PropVal.str ("API Gateway CNAME Record for " ++ domainName)),
     ("DeleteExisting", PropVal.bool true)]

/-- The `CfnPermissionProps` of the Lambda permission declared by `NewAPIResources`. -/
def permissionProps (apiObject : APIObject) (lambdaFunction : IFunction) : Props :=
  [("Action", PropVal.str "lambda:InvokeFunction"),
   ("Principal", PropVal.str "apigateway.amazonaws.com"),
   ("SourceArn", PropVal.attr apiObject.api.node Attr.RestApiId),
   ("FunctionName", PropVal.attr lambdaFunction.node Attr.FunctionName)]

def NewAPIResources (rt : Runtime) (scope : Construct) (id : String)
    (props : PropsAPIResources) : M APIResources := do
  let stack ← declare Kind.Stack (Scope.sdk scope) id props.StackProps.toProps
  let self : APIResources := { Stack := stack }
  let domainName := props.DomainName
  let golangCodeAsset := "sample-code/golang-sample.zip"
  let (lambdaFunction, lambdaRole) ←
    createLambdaFunctionAndRole rt self domainName props golangCodeAsset
  let apiObject ← addAPIResources self props lambdaFunction
  let _ ← declare Kind.CfnPermission self.scope (permissionId domainName)
    (permissionProps apiObject lambdaFunction)
  createRecordSetsInRoute53 self props domainName apiObject
  addTags self (← lambdaFunction.LatestVersion.Stack) props
  addTags self (← apiObject.api.toConstruct.Stack) props
  addTags self (← lambdaRole.Stack) props
  return self

/-- An application that instantiates the API stack, with the id `ApiStack`,
under a fresh `App`. -/
def apiApp (rt : Runtime) (props : PropsAPIResources) : M APIResources := do
  let app ← declare Kind.App Scope.nil "" []
  NewAPIResources rt app "ApiStack" props

/-- An application that creates the stack `ApiStack` from the props'
`StackProps`, as `NewAPIResources` does, and applies `addTags` to it once. -/
def tagStackOnce (props : PropsAPIResources) : M Unit := do
  let app ← declare Kind.App Scope.nil "" []
  let stack ← declare Kind.Stack (Scope.sdk app) "ApiStack" props.StackProps.toProps
  let self : APIResources := { Stack := stack }
  addTags self stack props

/-- The same application with three `addTags` calls on the stack, as in lines
72 to 74 of `NewAPIResources`. -/
def tagStackThrice (props : PropsAPIResources) : M Unit := do
  let app ← declare Kind.App Scope.nil "" []
  let stack ← declare Kind.Stack (Scope.sdk app) "ApiStack" props.StackProps.toProps
  let self : APIResources := { Stack := stack }
  addTags self stack props
  addTags self stack props
  addTags self stack props

/-! ## elasticache.go -/

/-- The VPC declared by both cache templates: two availability zones, one
public and one private-with-egress subnet group. -/
def cacheVpcProps : Props :=
  [("MaxAzs", PropVal.num 2),
   ("SubnetConfiguration", PropVal.subnetConfiguration
      [{ CidrMask := 24, Name := "Public", SubnetType := SubnetType.PUBLIC },
       { CidrMask := 24, Name := "Private", SubnetType := SubnetType.PRIVATE_WITH_EGRESS }])]

def placeholderEnv : StackProps :=
  { Env := some { Account := "YOUR_ACCOUNT_ID", Region := "YOUR_REGION" }, Tags := [] }

/-- Accessor `PrivateSubnets()` of a VPC: the private subnets the SDK laid out,
each named by the VPC and its index. -/
def PrivateSubnets (rt : Runtime) (vpc : Construct) : List (Handle × Nat) :=
  (List.range rt.privateSubnets).map (fun i => (vpc.node, i))

/-- Accessor `SubnetId()` of a subnet. -/
def SubnetId (v : Handle × Nat) : Handle × Attr := (v.1, Attr.PrivateSubnetId v.2)

namespace Elasticache

def CreateElastiCache (rt : Runtime) : M Unit := do
  let app ← declare Kind.App Scope.nil "" []
  let stack ← declare Kind.Stack (Scope.sdk app) "StickySessionStack" placeholderEnv.toProps
  let vpc ← declare Kind.Vpc (Scope.sdk stack) "MyVPC" cacheVpcProps
  let cacheSecurityGroup ← declare Kind.SecurityGroup (Scope.sdk stack) "CacheSecurityGroup"
    [("Vpc", PropVal.construct vpc.node),
     ("Description", PropVal.str "Security group for Elasticache")]
  call Method.AddIngressRule cacheSecurityGroup
    [("peer", PropVal.attr vpc.node Attr.VpcCidrBlock),
     ("connection", PropVal.num 6379),
     ("description", PropVal.str "Allow inbound from VPC")]
  let cacheCluster ← declare Kind.CfnCacheCluster (Scope.sdk stack) "MyCacheCluster"
    [("CacheNodeType", PropVal.str "cache.t2.micro"),
     ("Engine", PropVal.str "redis"),
     ("NumCacheNodes", PropVal.num 1),
     ("VpcSecurityGroupIds", PropVal.attrs [(cacheSecurityGroup.node, Attr.SecurityGroupId)]),
     ("ClusterName", PropVal.str "my-cache-cluster")]
  let subnets := PrivateSubnets rt vpc
  let subnetIds := subnets.map SubnetId
  let redisSubnetGroup ← declare Kind.CfnSubnetGroup (Scope.sdk stack) "RedisSubnetGroup"
    [("Description", PropVal.str "Subnet group for the Redis cluster"),
     ("SubnetIds", PropVal.attrs subnetIds),
     ("CacheSubnetGroupName", PropVal.str "Redis-Subnet-Group")]
  call Method.AddDependsOn cacheCluster [("target", PropVal.construct redisSubnetGroup.node)]
  let alb ← declare Kind.ApplicationLoadBalancer (Scope.sdk stack) "MyALB"
    [("Vpc", PropVal.construct vpc.node),
     ("InternetFacing", PropVal.bool true),
     ("VpcSubnets", PropVal.subnetSelection SubnetType.PUBLIC)]
  let instanceRole ← declare Kind.Role (Scope.sdk stack) "InstanceRole"
    [("AssumedBy", PropVal.principal "ec2.amazonaws.com")]
  call Method.AddManagedPolicy instanceRole
    [("policy", PropVal.const "AmazonSSMManagedInstanceCore")]
  let asg ← declare Kind.AutoScalingGroup (Scope.sdk stack) "MyAutoScalingGroup"
    [("Vpc", PropVal.construct vpc.node),
     ("InstanceType", PropVal.const "T2.MICRO"),
     ("MachineImage", PropVal.const "LatestAmazonLinux2"),
     ("MinCapacity", PropVal.num 2),
     ("MaxCapacity", PropVal.num 4),
     ("DesiredCapacity", PropVal.num 2),
     ("Role", PropVal.construct instanceRole.node),
     ("VpcSubnets", PropVal.subnetSelection SubnetType.PRIVATE_WITH_EGRESS)]
  let targets := [asg.node]
  let _ ← declare Kind.ApplicationTargetGroup (Scope.sdk stack) "MyTargetGroup"
    [("Port", PropVal.num 80),
     ("Targets", PropVal.constructs targets),
     ("Vpc", PropVal.construct vpc.node),
     ("TargetType", PropVal.const "INSTANCE")]
  let listener ← declare Kind.ApplicationListener (Scope.sdk alb) "Listener"
    [("Port", PropVal.num 80)]
  let httpslistener ← declare Kind.ApplicationListener (Scope.sdk alb) "HTTPSListener"
    [("Port", PropVal.num 443)]
  let _ ← declare Kind.ApplicationTargetGroup (Scope.sdk listener) "TargetGroup"
    [("Targets", PropVal.constructs targets),
     ("LoadBalancingAlgorithmType", PropVal.const "LEAST_OUTSTANDING_REQUESTS")]
  let _ ← declare Kind.ApplicationTargetGroup (Scope.sdk httpslistener) "HTTPSTargetGroup"
    [("Targets", PropVal.constructs targets)]
  call Method.Synth app []

end Elasticache

/-! ## rds-elasticache.go and vpc-endpoint.go -/

/-- The database instance declared by the RDS templates. -/
def rdsProps (vpc : Construct) : Props :=
  [("Engine", PropVal.const "POSTGRES"),
   ("InstanceType", PropVal.const "BURSTABLE2.MICRO"),
   ("Vpc", PropVal.construct vpc.node),
   ("VpcSubnets", PropVal.subnetSelection SubnetType.PRIVATE_ISOLATED),
   ("AllowMajorVersionUpgrade", PropVal.bool true),
   ("AutoMinorVersionUpgrade", PropVal.bool true),
   ("RemovalPolicy", PropVal.const "DESTROY"),
   ("StorageEncrypted", PropVal.bool true),
   ("MonitoringInterval", PropVal.num 64),
   ("EnablePerformanceInsights", PropVal.bool true),
   ("PubliclyAccessible", PropVal.bool false)]

namespace RdsElasticache

def CreateElastiCache : M Unit := do
  let app ← declare Kind.App Scope.nil "" []
  let stack ← declare Kind.Stack (Scope.sdk app) "StickySessionStack" placeholderEnv.toProps
  let vpc ← declare Kind.Vpc (Scope.sdk stack) "MyVPC" cacheVpcProps
  let cacheSecurityGroup ← declare Kind.SecurityGroup (Scope.sdk stack) "CacheSecurityGroup"
    [("Vpc", PropVal.construct vpc.node),
     ("Description", PropVal.str "Security group for Elasticache")]
  call Method.AddIngressRule cacheSecurityGroup
    [("peer", PropVal.attr vpc.node Attr.VpcCidrBlock),
     ("connection", PropVal.num 6379),
     ("description", PropVal.str "Allow inbound from VPC")]
  let _ ← declare Kind.CfnCacheCluster (Scope.sdk stack) "MyCacheCluster"
    [("CacheNodeType", PropVal.str "cache.t2.micro"),
     ("Engine", PropVal.str "redis"),
     ("NumCacheNodes", PropVal.num 1),
     ("VpcSecurityGroupIds", PropVal.attrs [(cacheSecurityGroup.node, Attr.SecurityGroupId)]),
     ("ClusterName", PropVal.str "my-cache-cluster")]
  let _ ← declare Kind.DatabaseInstance (Scope.sdk stack) "MyRDS" (rdsProps vpc)

end RdsElasticache

/-- Endpoint policy statement added to the DynamoDB gateway endpoint. -/
def dynamoDbEndpointStatement : PolicyStatement :=
  { Effect := none
    Principals := ["AnyPrincipal"]
    Actions := ["dynamodb:DescribeTable", "dynamodb:ListTables"]
    Resources := ["*"] }

/-- Endpoint policy statement added to the Secrets Manager interface endpoint. -/
def secretsManagerEndpointStatement : PolicyStatement :=
  { Effect := none
    Principals := ["AnyPrincipal"]
    Actions := ["secretsmanager:GetSecretValue"]
    Resources := ["*"] }

/-- The `VpcProps` of the VPC declared by `NewVPCEndpointStack`. -/
def endpointVpcProps : Props :=
  [("MaxAzs", PropVal.num 2),
   ("SubnetConfiguration", PropVal.subnetConfiguration
      [{ CidrMask := 24, Name := "Public", SubnetType := SubnetType.PUBLIC },
       { CidrMask := 24, Name := "Private", SubnetType := SubnetType.PRIVATE_WITH_EGRESS },
       { CidrMask := 24, Name := "Private", SubnetType := SubnetType.PRIVATE_ISOLATED }])]

def NewVPCEndpointStack (scope : Construct) (id : String) : M Construct := do
  let stack ← declare Kind.Construct (Scope.sdk scope) id []
  let vpc ← declare Kind.Vpc (Scope.sdk stack) "MyVPC" endpointVpcProps
  let dynamoDbGatewayEndpoint ← declare Kind.GatewayVpcEndpoint (Scope.sdk stack)
    "DynamoDbEndpoint"
    [("Vpc", PropVal.construct vpc.node), ("Service", PropVal.const "DYNAMODB")]
  let secretsManagerSG ← declare Kind.SecurityGroupImport (Scope.sdk stack)
    "SecretsManagerVPCEndpointSG" [("securityGroupId", PropVal.str "sg-exampleID")]
  let secretsManagerEndpoint ← declare Kind.InterfaceVpcEndpoint (Scope.sdk stack)
    "SecretsManagerEndpoint"
    [("Vpc", PropVal.construct vpc.node),
     ("Service", PropVal.const "SECRETS_MANAGER"),
     ("SecurityGroups", PropVal.constructs [secretsManagerSG.node])]
  let snsSG ← declare Kind.SecurityGroupImport (Scope.sdk stack) "SNSVPCEndpointSG"
    [("securityGroupId", PropVal.str "sg-exampleID")]
  let snsEndpoint ← declare Kind.InterfaceVpcEndpoint (Scope.sdk stack) "SNSEndpoint"
    [("Vpc", PropVal.construct vpc.node),
     ("Service", PropVal.const "SNS"),
     ("SecurityGroups", PropVal.constructs [snsSG.node])]
  call Method.AddToPolicy dynamoDbGatewayEndpoint
    [("statement", PropVal.statement dynamoDbEndpointStatement)]
  call Method.AddToPolicy secretsManagerEndpoint
    [("statement", PropVal.statement secretsManagerEndpointStatement)]
  let _ ← declare Kind.DatabaseInstance (Scope.sdk stack) "MyRDS" (rdsProps vpc)
  let lambdaRole ← declare Kind.Role (Scope.sdk stack) "LambdaRole"
    [("AssumedBy", PropVal.principal "lambda.amazonaws.com")]
  call Method.AddManagedPolicy lambdaRole
    [("policy", PropVal.const "service-role/AWSLambdaBasicExecutionRole")]
  let lambdaFunctionSG ← declare Kind.SecurityGroupImport (Scope.sdk stack) "lambdaFunctionSG"
    [("securityGroupId", PropVal.str "sg-exampleID")]
  let lambdaFunction ← declare Kind.Function (Scope.sdk stack) "MyLambdaFunction"
    [("Runtime", PropVal.const "NODEJS_20_X"),
     ("Handler", PropVal.str "index.handler"),
     ("Code", PropVal.asset "lambda"),
     ("Vpc", PropVal.construct vpc.node),
     ("Role", PropVal.construct lambdaRole.node),
     ("SecurityGroups", PropVal.constructs [lambdaFunctionSG.node])]
  let httpsPort := 443
  call Method.AllowFrom snsEndpoint
    [("other", PropVal.construct lambdaFunction.node), ("portRange", PropVal.num httpsPort)]
  call Method.AllowFrom secretsManagerEndpoint
    [("other", PropVal.construct lambdaFunction.node), ("portRange", PropVal.num httpsPort)]
  return stack

namespace VpcEndpoint

def main : M Unit := do
  let app ← declare Kind.App Scope.nil "" []
  let _ ← declare Kind.Construct Scope.nil "" []
  let _ ← NewVPCEndpointStack app "VPCEndpointStack"
  call Method.Synth app []

/-- An application that calls `NewVPCEndpointStack` with a stack as scope. -/
def inStack : M Construct := do
  let app ← declare Kind.App Scope.nil "" []
  let host ← declare Kind.Stack (Scope.sdk app) "HostStack" placeholderEnv.toProps
  NewVPCEndpointStack host "VPCEndpointStack"

end VpcEndpoint

/-! ## routing-route53.go -/

def CNamePolicies : M Unit := do
  let app ← declare Kind.App Scope.nil "" []
  let stack ← declare Kind.Stack (Scope.sdk app) "ABTestingStack" placeholderEnv.toProps
  let hostedZone ← declare Kind.HostedZone (Scope.sdk stack) "MyHostedZone"
    [("ZoneName", PropVal.str "example.com")]
  let _ ← declare Kind.CnameRecord (Scope.sdk stack) "MyCnameRecord"
    [("Zone", PropVal.construct hostedZone.node),
     ("RecordName", PropVal.str "sub.example.com"),
     ("Weight", PropVal.num 50),
     ("DomainName", PropVal.str "example.com"),
     ("Comment", PropVal.str "example cname record")]
  let _ ← declare Kind.CnameRecord (Scope.sdk stack) "MyCnameRecord"
    [("Zone", PropVal.construct hostedZone.node),
     ("RecordName", PropVal.str "sub.example.com"),
     ("Weight", PropVal.num 50),
     ("DomainName", PropVal.str "example.com"),
     ("Comment", PropVal.str "example cname record"),
     ("Region", PropVal.str "eu-west-1")]

def ARecord : M Unit := do
  let app ← declare Kind.App Scope.nil "" []
  let stack ← declare Kind.Stack (Scope.sdk app) "ABTestingStack" placeholderEnv.toProps
  let hostedZone ← declare Kind.HostedZone (Scope.sdk stack) "MyHostedZone"
    [("ZoneName", PropVal.str "example.com")]
  let _ ← declare Kind.ARecord (Scope.sdk stack) "ARecord"
    [("Zone", PropVal.construct hostedZone.node),
     ("RecordName", PropVal.str "www"),
     ("Target", PropVal.strs ["1.2.3.4", "5.6.7.8"])]

def GeoLocationRouting : M Unit := do
  let app ← declare Kind.App Scope.nil "" []
  let stack ← declare Kind.Stack (Scope.sdk app) "ABTestingStack" placeholderEnv.toProps
  let hostedZone ← declare Kind.HostedZone (Scope.sdk stack) "MyHostedZone"
    [("ZoneName", PropVal.str "example.com")]
  let _ ← declare Kind.CnameRecord (Scope.sdk stack) "MyCnameRecord"
    [("Zone", PropVal.construct hostedZone.node),
     ("RecordName", PropVal.str "sub.example.com"),
     ("GeoLocation", PropVal.const "Continent(EUROPE)"),
     ("DomainName", PropVal.str "example.com"),
     ("Comment", PropVal.str "example cname record"),
     ("Region", PropVal.str "eu-west-1")]
  let _ ← declare Kind.ARecord (Scope.sdk stack) "ARecordGeoLocationContinent"
    [("Zone", PropVal.construct hostedZone.node),
     ("Target", PropVal.strs ["1.2.3.0", "5.6.7.0"]),
     ("GeoLocation", PropVal.const "Continent(EUROPE)")]
  let _ ← declare Kind.ARecord (Scope.sdk stack) "ARecordGeoLocationCountry"
    [("Zone", PropVal.construct hostedZone.node),
     ("Target", PropVal.strs ["1.2.3.1", "5.6.7.1"]),
     ("GeoLocation", PropVal.const "Country(DE)")]
  let _ ← declare Kind.ARecord (Scope.sdk stack) "ARecordGeoLocationSubDividion"
    [("Zone", PropVal.construct hostedZone.node),
     ("Target", PropVal.strs ["1.2.3.2", "5.6.7.2"]),
     ("GeoLocation", PropVal.const "Subdivision(Subdivision Code, WA)")]
  let _ ← declare Kind.ARecord (Scope.sdk stack) "ARecordGeoLocationDefault"
    [("Zone", PropVal.construct hostedZone.node),
     ("Target", PropVal.strs ["1.2.3.3", "5.6.7.3"]),
     ("GeoLocation", PropVal.const "Default")]

def LatencyRouting : M Unit := do
  let app ← declare Kind.App Scope.nil "" []
  let stack ← declare Kind.Stack (Scope.sdk app) "ABTestingStack" placeholderEnv.toProps
  let _ ← declare Kind.CfnHealthCheck (Scope.sdk stack) "MyCfnHealthCheck"
    [("HealthCheckConfig.Type", PropVal.str "type"),
     ("HealthCheckConfig.AlarmIdentifier.Name", PropVal.str "name"),
     ("HealthCheckConfig.AlarmIdentifier.Region", PropVal.str "region"),
     ("HealthCheckConfig.ChildHealthChecks", PropVal.strs ["childHealthChecks"]),
     ("HealthCheckConfig.EnableSni", PropVal.bool false),
     ("HealthCheckConfig.FailureThreshold", PropVal.num 123),
     ("HealthCheckConfig.FullyQualifiedDomainName", PropVal.str "fullyQualifiedDomainName"),
     ("HealthCheckConfig.HealthThreshold", PropVal.num 123),
     ("HealthCheckConfig.InsufficientDataHealthStatus",
        PropVal.str "insufficientDataHealthStatus"),
     ("HealthCheckConfig.Inverted", PropVal.bool false),
     ("HealthCheckConfig.IpAddress", PropVal.str "ipAddress"),
     ("HealthCheckConfig.MeasureLatency", PropVal.bool false),
     ("HealthCheckConfig.Port", PropVal.num 123),
     ("HealthCheckConfig.Regions", PropVal.strs ["regions"]),
     ("HealthCheckConfig.RequestInterval", PropVal.num 123),
     ("HealthCheckConfig.ResourcePath", PropVal.str "resourcePath"),
     ("HealthCheckConfig.RoutingControlArn", PropVal.str "routingControlArn"),
     ("HealthCheckConfig.SearchString", PropVal.str "searchString"),
     ("HealthCheckTags", PropVal.strMap [("key", "value")])]

/-! ## Reading a trace -/

/-- Kind of the construct an event creates, when it creates one. -/
def Event.kind? : Event → Option Kind
  | Event.declare kind _ _ _ => some kind
  | Event.call _ _ _ => none

/-- Kinds of the constructs of a trace, in creation order. -/
def creationOrder (t : Trace) : List Kind := t.filterMap Event.kind?

/-- Kind of the construct created at position `h`, when that position creates one. -/
def kindAt (t : Trace) (h : Handle) : Option Kind := t[h]?.bind Event.kind?

/-- Handles a property value refers to, as an object or through an output. -/
def PropVal.refs : PropVal → List Handle
  | PropVal.construct h => [h]
  | PropVal.constructs hs => hs
  | PropVal.attr h _ => [h]
  | PropVal.attrs l => l.map Prod.fst
  | PropVal.alias h => [h]
  | PropVal.integration (Integration.lambda h) => [h]
  | _ => []

def propsRefs (props : Props) : List Handle := props.flatMap (fun p => p.2.refs)

/-- Constructs an event needs: the scope and every construct referred to by a
property for a creation, the receiver and every argument for a method call. -/
def Event.uses : Event → List Handle
  | Event.declare _ scope _ props => scope.toList ++ propsRefs props
  | Event.call _ target args => target :: propsRefs args

/-- Reference-implied edges `(position, needed construct)` of a trace. -/
def referenceEdges (t : Trace) : List (Nat × Handle) :=
  t.enum.flatMap (fun ie => ie.2.uses.map (fun h => (ie.1, h)))

/-- Explicit edges `(dependent, dependency)` recorded through `AddDependsOn`. -/
def explicitEdges (t : Trace) : List (Handle × Handle) :=
  t.flatMap fun e =>
    match e with
    | Event.call Method.AddDependsOn target args => (propsRefs args).map (fun d => (target, d))
    | _ => []

/-- An edge is respected by the creation order when the needed construct is
created at a position before the one that needs it. -/
def edgeRespected (t : Trace) (edge : Nat × Handle) : Bool :=
  decide (edge.2 < edge.1) && (kindAt t edge.2).isSome

/-- What an event is, without its arguments. -/
inductive Label
  | created (kind : Kind)
  | called (method : Method)
  deriving DecidableEq, Repr

def Event.label : Event → Label
  | Event.declare kind _ _ _ => Label.created kind
  | Event.call method _ _ => Label.called method

/-- The seven resource kinds of the gateway scenario. -/
def scenarioKinds : List Kind :=
  [Kind.Role, Kind.Topic, Kind.Function, Kind.RestApi, Kind.CfnPermission, Kind.DomainName,
   Kind.ARecord]

/-- Creation order restricted to the scenario's resource kinds. -/
def scenarioOrder (t : Trace) : List Kind :=
  (creationOrder t).filter (fun k => decide (k ∈ scenarioKinds))

/-- Logical ids declared directly under the construct `scope`, in creation order. -/
def idsUnder (t : Trace) (scope : Handle) : List String :=
  t.filterMap fun e =>
    match e with
    | Event.declare _ (some s) id _ => if s = scope then some id else none
    | _ => none

/-- Every construct needed by the event at position `i` is created at an
earlier position (vacuous past the end of the trace). -/
def usesCreatedBefore (t : Trace) (i : Nat) : Bool :=
  match t[i]? with
  | some e => e.uses.all (edgeRespected t ∘ Prod.mk i)
  | none => true

/-- Position at which the construct with logical id `id` is created. -/
def positionOfId (t : Trace) (id : String) : Option Handle :=
  match t.findIdx? (fun e =>
      match e with
      | Event.declare _ _ id' _ => id' == id
      | Event.call _ _ _ => false) with
  | some i => some i
  | none => none

/-- Logical ids declared directly under the construct whose own id is `scopeId`. -/
def idsUnderId (t : Trace) (scopeId : String) : List String :=
  match positionOfId t scopeId with
  | some h => idsUnder t h
  | none => []

/-! ## Statements, attachments and grants -/

def PropVal.statementsOf : PropVal → List PolicyStatement
  | PropVal.statement s => [s]
  | PropVal.statements l => l
  | _ => []

/-- Topic and grantees of every `GrantPublish` call. -/
def grantPublishCalls (t : Trace) : List (Handle × List Handle) :=
  t.filterMap fun e =>
    match e with
    | Event.call Method.GrantPublish topic args => some (topic, propsRefs args)
    | _ => none

/-! ## Tags -/

structure Tag where
  key : String
  value : String
  priority : Nat
  applyToLaunchedInstances : Bool
  deriving DecidableEq, Repr

/-- Priority recorded for a key in a tag manager; 0 when the key holds no tag. -/
def priorityOf (tags : List Tag) (key : String) : Nat :=
  match tags.find? (fun t => decide (t.key = key)) with
  | some t => t.priority
  | none => 0

/-- Store a tag under its key: in place when the key is present, at the end otherwise. -/
def upsert (tags : List Tag) (tag : Tag) : List Tag :=
  if tags.any (fun t => decide (t.key = tag.key)) then
    tags.map (fun t => if t.key = tag.key then tag else t)
  else tags ++ [tag]

/-- The SDK's `TagManager.SetTag` on the tags of one construct (library
behaviour, not part of the templates): the tag is stored unless the key already
holds one set with a higher priority.  The templates never remove a tag, so a
key's recorded priority is the priority of the tag it holds. -/
def SetTag (tags : List Tag) (tag : Tag) : List Tag :=
  if priorityOf tags tag.key ≤ tag.priority then upsert tags tag else tags

/-- The key of `tag` holds exactly `tag`. -/
def Holds (tags : List Tag) (tag : Tag) : Prop :=
  tag ∈ tags ∧ ∀ t ∈ tags, t.key = tag.key → t = tag

/-- A tag is settled when setting it again changes nothing: either the key
holds a tag of higher priority, or it holds this very tag. -/
def Settled (tags : List Tag) (tag : Tag) : Prop :=
  tag.priority < priorityOf tags tag.key ∨
    (priorityOf tags tag.key = tag.priority ∧ Holds tags tag)

/-- The tag a `SetTag` call asks for on `target`. -/
def Event.tagFor (target : Handle) : Event → Option Tag
  | Event.call Method.SetTag h
      [(_, PropVal.str key), (_, PropVal.str value), (_, PropVal.num priority),
       (_, PropVal.bool apply)] =>
    if h = target then some { key := key, value := value, priority := priority,
                              applyToLaunchedInstances := apply } else none
  | _ => none

/-- Tags requested on `target` by the `SetTag` calls of a trace, in order. -/
def tagRequests (t : Trace) (target : Handle) : List Tag := t.filterMap (Event.tagFor target)

/-- Tags of `target` after the trace, starting from the tags `init`. -/
def tagsAfter (t : Trace) (target : Handle) (init : List Tag) : List Tag :=
  (tagRequests t target).foldl SetTag init

/-- Priority at which the SDK holds the tags a stack is created with
(`StackProps.Tags`); library behaviour, not part of the templates. -/
def externalTagPriority : Nat := 50

/-- Tags a construct is created with: for a stack, its `StackProps.Tags`. -/
def initialTags (t : Trace) (target : Handle) : List Tag :=
  match t[target]? with
  | some (Event.declare Kind.Stack _ _ props) =>
    match props.lookup "Tags" with
    | some (PropVal.strMap m) =>
      (m.map (fun kv => { key := kv.1, value := kv.2, priority := externalTagPriority,
                          applyToLaunchedInstances := true : Tag })).foldl SetTag []
    | _ => []
  | _ => []

/-- Tags of `target` after the trace. -/
def tagsOf (t : Trace) (target : Handle) : List Tag := tagsAfter t target (initialTags t target)

/-- Value held for a key. -/
def tagValue (tags : List Tag) (key : String) : Option String :=
  (tags.find? (fun t => decide (t.key = key))).map (fun t => t.value)

/-- The keys `addTags` sets. -/
def addTagsKeys : List String := ["environment", "project", "author", "site"]

/-- The four tags `addTags` asks for. -/
def addTagsRequests (props : PropsAPIResources) : List Tag :=
  [{ key := "environment", value := props.Environment, priority := 1,
     applyToLaunchedInstances := true },
   { key := "project", value := config.project, priority := 2, applyToLaunchedInstances := true },
   { key := "author", value := config.author, priority := 3, applyToLaunchedInstances := true },
   { key := "site", value := props.ApiDomainName, priority := 4,
     applyToLaunchedInstances := true }]

/-! ## The log-group resource -/

/-- The log-group ARN as specified: the format of `createLambdaFunctionAndRole`
filled with the region, the account and the string value of the function's
name.  This follows the wording of the specified behaviour, to be compared with
`createLogGroupStatement`. -/
def specifiedLogGroupArn (rt : Runtime) (props : PropsAPIResources) : String :=
  "arn:aws:logs:" ++ rt.region ++ ":" ++ rt.accountId ++ ":log-group:/aws/lambda/" ++
    functionName props ++ ":*"

/-- Subnet-type selections of a trace: the logical id of the selecting
resource, the VPC it is placed in and the subnet type it selects. -/
def subnetSelections (t : Trace) : List (String × Handle × SubnetType) :=
  t.flatMap fun e =>
    match e with
    | Event.declare _ _ id props =>
      match props.lookup "Vpc", props.lookup "VpcSubnets" with
      | some (PropVal.construct vpc), some (PropVal.subnetSelection ty) => [(id, vpc, ty)]
      | _, _ => []
    | _ => []

/-- The selected subnet type is among those configured for the selection's VPC. -/
def selectionConfigured (t : Trace) (sel : String × Handle × SubnetType) : Bool :=
  decide (sel.2.2 ∈ configuredSubnetTypes t sel.2.1)

/-! ## Methods and CORS headers -/

def sampleRuntime : Runtime :=
  { region := "eu-west-1", accountId := "123456789012", functionNameAddr := 824633802832,
    privateSubnets := 2 }

def sampleProps : PropsAPIResources :=
  { StackProps := { Env := none, Tags := [] }
    DomainName := "example.com"
    Environment := "dev"
    SampleCodeBucket := "sample-bucket"
    CertificateArn := "arn:aws:acm:us-east-1:123456789012:certificate/abc"
    HostedZoneId := "Z0123456789"
    ApiDomainName := "api.example.com"
    IsProduction := false }

/-- Props whose stack is created with an `environment` tag of its own. -/
def taggedProps : PropsAPIResources :=
  { sampleProps with StackProps := { Env := none, Tags := [("environment", "prod")] } }

/-- The run of the gateway application: the app, the stack, and the creation of
the dead-letter topic, which the SDK rejects because the scope it is given is
the Go struct `self`, not a construct. -/
theorem apiApp_exec (rt : Runtime) (props : PropsAPIResources) :
    exec (apiApp rt props) =
      [Event.declare Kind.App none "" [],
       Event.declare Kind.Stack (some 0) "ApiStack" props.StackProps.toProps,
       Event.declare Kind.Topic (some 1) (topicId props.DomainName)
         [("DisplayName", PropVal.str (props.Environment ++ config.project ++ "DeadLetterTopic")),
          ("TopicName",
            PropVal.str (props.Environment ++ "-" ++ config.project ++ "-dead-letter-topic"))]] :=
  rfl

/-- The run of `CreateElastiCache` of elasticache.go: sixteen calls, the last
of which, the target group added to the first listener, the SDK rejects. -/
theorem elastiCache_exec (rt : Runtime) :
    exec (Elasticache.CreateElastiCache rt) =
      [Event.declare Kind.App none "" [],
       Event.declare Kind.Stack (some 0) "StickySessionStack" placeholderEnv.toProps,
       Event.declare Kind.Vpc (some 1) "MyVPC" cacheVpcProps,
       Event.declare Kind.SecurityGroup (some 1) "CacheSecurityGroup"
         [("Vpc", PropVal.construct 2),
          ("Description", PropVal.str "Security group for Elasticache")],
       Event.call Method.AddIngressRule 3
         [("peer", PropVal.attr 2 Attr.VpcCidrBlock), ("connection", PropVal.num 6379),
          ("description", PropVal.str "Allow inbound from VPC")],
       Event.declare Kind.CfnCacheCluster (some 1) "MyCacheCluster"
         [("CacheNodeType", PropVal.str "cache.t2.micro"), ("Engine", PropVal.str "redis"),
          ("NumCacheNodes", PropVal.num 1),
          ("VpcSecurityGroupIds", PropVal.attrs [(3, Attr.SecurityGroupId)]),
          ("ClusterName", PropVal.str "my-cache-cluster")],
       Event.declare Kind.CfnSubnetGroup (some 1) "RedisSubnetGroup"
         [("Description", PropVal.str "Subnet group for the Redis cluster"),
          ("SubnetIds",
            PropVal.attrs (List.map SubnetId (PrivateSubnets rt { node := 2, stack := some 1 }))),
          ("CacheSubnetGroupName", PropVal.str "Redis-Subnet-Group")],
       Event.call Method.AddDependsOn 5 [("target", PropVal.construct 6)],
       Event.declare Kind.ApplicationLoadBalancer (some 1) "MyALB"
         [("Vpc", PropVal.construct 2), ("InternetFacing", PropVal.bool true),
          ("VpcSubnets", PropVal.subnetSelection SubnetType.PUBLIC)],
       Event.declare Kind.Role (some 1) "InstanceRole"
         [("AssumedBy", PropVal.principal "ec2.amazonaws.com")],
       Event.call Method.AddManagedPolicy 9
         [("policy", PropVal.const "AmazonSSMManagedInstanceCore")],
       Event.declare Kind.AutoScalingGroup (some 1) "MyAutoScalingGroup"
         [("Vpc", PropVal.construct 2), ("InstanceType", PropVal.const "T2.MICRO"),
          ("MachineImage", PropVal.const "LatestAmazonLinux2"), ("MinCapacity", PropVal.num 2),
          ("MaxCapacity", PropVal.num 4), ("DesiredCapacity", PropVal.num 2),
          ("Role", PropVal.construct 9),
          ("VpcSubnets", PropVal.subnetSelection SubnetType.PRIVATE_WITH_EGRESS)],
       Event.declare Kind.ApplicationTargetGroup (some 1) "MyTargetGroup"
         [("Port", PropVal.num 80), ("Targets", PropVal.constructs [11]),
          ("Vpc", PropVal.construct 2), ("TargetType", PropVal.const "INSTANCE")],
       Event.declare Kind.ApplicationListener (some 8) "Listener" [("Port", PropVal.num 80)],
       Event.declare Kind.ApplicationListener (some 8) "HTTPSListener"
         [("Port", PropVal.num 443)],
       Event.declare Kind.ApplicationTargetGroup (some 13) "TargetGroup"
         [("Targets", PropVal.constructs [11]),
          ("LoadBalancingAlgorithmType", PropVal.const "LEAST_OUTSTANDING_REQUESTS")]] := by
  simp [exec, emptyTree, Elasticache.CreateElastiCache, declare, call, rejects, bind, pure,
    M.bind, M.pure, Event.declaresUnder, Kind.needsStack, Kind.isRecordSet, routingPolicies,
    Scope.handle?, placeholderEnv, StackProps.toProps, cacheVpcProps, PropVal.subnetNames,
    configuredSubnetTypes, PropVal.subnetTypes, List.lookup]

theorem elastiCache_rejection (rt : Runtime) :
    rejection (Elasticache.CreateElastiCache rt) = some Rejection.portOrProtocolRequired := by
  simp [rejection, emptyTree, Elasticache.CreateElastiCache, declare, call, rejects, bind, pure,
    M.bind, M.pure, Event.declaresUnder, Kind.needsStack, Kind.isRecordSet, routingPolicies,
    Scope.handle?, placeholderEnv, StackProps.toProps, cacheVpcProps, PropVal.subnetNames,
    configuredSubnetTypes, PropVal.subnetTypes, List.lookup]

/-! ## Creation order of the gateway stack -/

/-- C1 (as stated, refuted): on the sample props the scenario resources are not
created in the order Role, Topic, Function, Api, Permission, DomainName,
DnsRecord: the first one whose constructor is called is the Topic. -/
theorem C1_claimed_order_fails :
    scenarioOrder (exec (apiApp sampleRuntime sampleProps)) ≠
      [Kind.Role, Kind.Topic, Kind.Function, Kind.RestApi, Kind.CfnPermission,
       Kind.DomainName, Kind.ARecord] := by
  decide

/-- C1 (amended): for every props the first of the seven scenario resources
whose constructor `NewAPIResources` calls is the Topic, not the Role, and that
call is the third of the application, directly after the app and the stack. -/
theorem C1_scenario_creation_order (rt : Runtime) (props : PropsAPIResources) :
    (scenarioOrder (exec (apiApp rt props))).head? = some Kind.Topic ∧
    ((exec (apiApp rt props)).take 3).map Event.label =
      [Label.created Kind.App, Label.created Kind.Stack, Label.created Kind.Topic] := by
  rw [apiApp_exec]
  exact ⟨rfl, rfl⟩

/-! ## Reference-implied and explicit edges -/

theorem mem_referenceEdges {t : Trace} {edge : Nat × Handle} (h : edge ∈ referenceEdges t) :
    ∃ e, t[edge.1]? = some e ∧ edge.2 ∈ e.uses := by
  obtain ⟨ie, hie, hedge⟩ := List.mem_flatMap.mp h
  obtain ⟨u, hu, rfl⟩ := List.mem_map.mp hedge
  have hget : t[ie.1]? = some ie.2 := List.mk_mem_enum_iff_getElem?.mp hie
  exact ⟨ie.2, hget, hu⟩

theorem edgeRespected_iff (t : Trace) (edge : Nat × Handle) :
    edgeRespected t edge = true ↔ edge.2 < edge.1 ∧ (kindAt t edge.2).isSome = true := by
  simp [edgeRespected]

/-- When the check `usesCreatedBefore` passes at every position, every
reference-implied edge is respected. -/
theorem referenceEdges_respected_of_check {t : Trace}
    (h : ∀ i, i < t.length → usesCreatedBefore t i = true) :
    ∀ edge ∈ referenceEdges t, edge.2 < edge.1 ∧ (kindAt t edge.2).isSome = true := by
  intro edge hmem
  obtain ⟨e, he, hu⟩ := mem_referenceEdges hmem
  have hlt : edge.1 < t.length := (List.getElem?_eq_some.mp he).1
  have hc := h edge.1 hlt
  simp only [usesCreatedBefore, he] at hc
  have := List.all_eq_true.mp hc edge.2 hu
  exact (edgeRespected_iff t edge).mp this

theorem forall_lt_of_range_all {n : Nat} {p : Nat → Bool}
    (h : (List.range n).all p = true) : ∀ i, i < n → p i = true :=
  fun i hi => List.all_eq_true.mp h i (List.mem_range.mpr hi)


/-- C3 (as stated, refuted): in `CreateElastiCache` of elasticache.go the
creation order is not consistent with the explicit edge: MyCacheCluster
(position 5) depends on RedisSubnetGroup (position 6), which is created later. -/
theorem C3_explicit_edge_not_respected :
    ¬ (∀ edge ∈ explicitEdges (exec (Elasticache.CreateElastiCache sampleRuntime)) ++
          referenceEdges (exec (Elasticache.CreateElastiCache sampleRuntime)),
        edge.2 < edge.1) := by
  intro claimed
  have hexplicit : explicitEdges (exec (Elasticache.CreateElastiCache sampleRuntime)) =
      [(5, 6)] := by
    rw [elastiCache_exec]
    rfl
  have hmem : ((5, 6) : Nat × Nat) ∈
      explicitEdges (exec (Elasticache.CreateElastiCache sampleRuntime)) ++
        referenceEdges (exec (Elasticache.CreateElastiCache sampleRuntime)) :=
    List.mem_append_left _ (by rw [hexplicit]; exact List.mem_singleton.mpr rfl)
  exact absurd (claimed (5, 6) hmem) (by decide)

/-- C3 (amended): in `CreateElastiCache` of elasticache.go every
reference-implied edge is respected by the creation order, whereas the one
explicit edge is not: MyCacheCluster is created at position 5, RedisSubnetGroup
at position 6, and the dependency of the former on the latter is recorded by
the `AddDependsOn` call at position 7, after both exist. -/
theorem C3_cache_creation_order (rt : Runtime) :
    (∀ edge ∈ referenceEdges (exec (Elasticache.CreateElastiCache rt)),
      edge.2 < edge.1 ∧
        (kindAt (exec (Elasticache.CreateElastiCache rt)) edge.2).isSome = true) ∧
    positionOfId (exec (Elasticache.CreateElastiCache rt)) "MyCacheCluster" = some 5 ∧
    positionOfId (exec (Elasticache.CreateElastiCache rt)) "RedisSubnetGroup" = some 6 ∧
    explicitEdges (exec (Elasticache.CreateElastiCache rt)) = [(5, 6)] ∧
    (exec (Elasticache.CreateElastiCache rt))[7]? =
      some (Event.call Method.AddDependsOn 5 [("target", PropVal.construct 6)]) := by
  refine ⟨?_, ?_, ?_, ?_, ?_⟩
  · apply referenceEdges_respected_of_check
    have hlen : (exec (Elasticache.CreateElastiCache rt)).length = 16 := by
      rw [elastiCache_exec]
      rfl
    rw [hlen]
    intro i hi
    by_cases h6 : i = 6
    · subst h6
      rw [elastiCache_exec]
      simp [usesCreatedBefore, Event.uses, propsRefs, PropVal.refs, edgeRespected, kindAt,
        PrivateSubnets, SubnetId, Event.kind?]
    · have hrest : (List.range 16).all
          (fun i => i == 6 || usesCreatedBefore (exec (Elasticache.CreateElastiCache rt)) i) =
          true := by
        rw [elastiCache_exec]
        rfl
      have := forall_lt_of_range_all hrest i hi
      simpa [h6] using this
  all_goals
    rw [elastiCache_exec]
    rfl

/-- C3 (witness): with the sample runtime the cache cluster at position 5
needs the security group created at position 3. -/
theorem C3_cache_creation_order_witness :
    (3 : Nat) < 5 ∧
      (kindAt (exec (Elasticache.CreateElastiCache sampleRuntime)) 3).isSome = true :=
  (C3_cache_creation_order sampleRuntime).1 (5, 3) (by
    have hedges : referenceEdges (exec (Elasticache.CreateElastiCache sampleRuntime)) =
      [(1, 0), (2, 1), (3, 1), (3, 2), (4, 3), (4, 2), (5, 1), (5, 3), (6, 1), (6, 2), (6, 2),
       (7, 5), (7, 6), (8, 1), (8, 2), (9, 1), (10, 9), (11, 1), (11, 2), (11, 9), (12, 1),
       (12, 11), (12, 2), (13, 8), (14, 8), (15, 13), (15, 11)] := by
      rw [elastiCache_exec]
      rfl
    rw [hedges]
    decide)

/-! ## Logical ids -/

/-- C4 (evaluation): `CNamePolicies` declares the id `MyCnameRecord` twice
under its stack, so its stack-level ids are not pairwise distinct, and the SDK
rejects the second declaration as a duplicate; the stack-level ids declared by
the runs of `ARecord`, `GeoLocationRouting`, `LatencyRouting`, both
`CreateElastiCache` and `NewVPCEndpointStack` are pairwise distinct (the run of
`main` in vpc-endpoint.go declares none). -/
theorem C4_fixed_id_templates (rt : Runtime) :
    idsUnderId (exec CNamePolicies) "ABTestingStack" =
      ["MyHostedZone", "MyCnameRecord", "MyCnameRecord"] ∧
    ¬ (idsUnderId (exec CNamePolicies) "ABTestingStack").Nodup ∧
    (idsUnderId (exec ARecord) "ABTestingStack").Nodup ∧
    (idsUnderId (exec GeoLocationRouting) "ABTestingStack").Nodup ∧
    (idsUnderId (exec LatencyRouting) "ABTestingStack").Nodup ∧
    (idsUnderId (exec (Elasticache.CreateElastiCache rt)) "StickySessionStack").Nodup ∧
    (idsUnderId (exec RdsElasticache.CreateElastiCache) "StickySessionStack").Nodup ∧
    (idsUnderId (exec VpcEndpoint.main) "VPCEndpointStack").Nodup ∧
    rejection CNamePolicies = some Rejection.duplicateId ∧
    (exec CNamePolicies).length = 5 := by
  have h1 : idsUnderId (exec CNamePolicies) "ABTestingStack" =
      ["MyHostedZone", "MyCnameRecord", "MyCnameRecord"] := by decide
  have h2 : idsUnderId (exec ARecord) "ABTestingStack" = ["MyHostedZone", "ARecord"] := by
    decide
  have h3 : idsUnderId (exec GeoLocationRouting) "ABTestingStack" =
      ["MyHostedZone", "MyCnameRecord"] := by decide
  have h4 : idsUnderId (exec LatencyRouting) "ABTestingStack" = ["MyCfnHealthCheck"] := by
    decide
  have h5 : idsUnderId (exec (Elasticache.CreateElastiCache rt)) "StickySessionStack" =
      ["MyVPC", "CacheSecurityGroup", "MyCacheCluster", "RedisSubnetGroup", "MyALB",
       "InstanceRole", "MyAutoScalingGroup", "MyTargetGroup"] := by
    rw [elastiCache_exec]
    rfl
  have h6 : idsUnderId (exec RdsElasticache.CreateElastiCache) "StickySessionStack" =
      ["MyVPC", "CacheSecurityGroup", "MyCacheCluster", "MyRDS"] := by decide
  have h7 : idsUnderId (exec VpcEndpoint.main) "VPCEndpointStack" = [] := by decide
  rw [h1, h2, h3, h4, h5, h6, h7]
  refine ⟨rfl, ?_, ?_, ?_, ?_, ?_, ?_, ?_, ?_, ?_⟩ <;> decide

/-! ## Strings that differ -/

theorem append_ne_of_suffix (x y s t : String) (k : Nat) (hs : k ≤ s.data.reverse.length)
    (ht : k ≤ t.data.reverse.length) (h : s.data.reverse.take k ≠ t.data.reverse.take k) :
    x ++ s ≠ y ++ t := by
  intro e
  apply h
  have h1 := congrArg (fun u : String => u.data.reverse.take k) e
  simp only [String.data_append, List.reverse_append] at h1
  rw [List.take_append_of_le_length hs, List.take_append_of_le_length ht] at h1
  exact h1

theorem append_ne_of_prefix (s t x y : String) (k : Nat) (hs : k ≤ s.data.length)
    (ht : k ≤ t.data.length) (h : s.data.take k ≠ t.data.take k) :
    s ++ x ≠ t ++ y := by
  intro e
  apply h
  have h1 := congrArg (fun u : String => u.data.take k) e
  simp only [String.data_append] at h1
  rw [List.take_append_of_le_length hs, List.take_append_of_le_length ht] at h1
  exact h1


theorem logGroupResources_eq (rt : Runtime) :
    (createLogGroupStatement rt).Resources =
      ["arn:aws:logs:" ++ rt.region ++ ":" ++ rt.accountId ++ ":log-group:/aws/lambda/" ++
        sprintfPtrS rt.functionNameAddr ++ ":*"] :=
  rfl

/-- The permission's `SourceArn` is given the RestApiId output of the API. -/
theorem permission_sourceArn (apiObject : APIObject) (lambdaFunction : IFunction) :
    (permissionProps apiObject lambdaFunction).lookup "SourceArn" =
      some (PropVal.attr apiObject.api.node Attr.RestApiId) :=
  rfl

/-- C9 (evaluation): for every props the run of `NewAPIResources` makes no
`GrantPublish` call and declares neither the role nor the function:
`createLambdaFunctionAndRole` is rejected at the creation of the dead-letter
topic and returns nothing. -/
theorem C9_no_grant_publish (rt : Runtime) (props : PropsAPIResources) :
    grantPublishCalls (exec (apiApp rt props)) = [] ∧
    creationOrder (exec (apiApp rt props)) = [Kind.App, Kind.Stack, Kind.Topic] ∧
    rejection (apiApp rt props) = some Rejection.embeddingScope ∧
    result (apiApp rt props) = none ∧
    rejection (createLambdaFunctionAndRole rt { Stack := { node := 1, stack := some 1 } }
      props.DomainName props "sample-code/golang-sample.zip") =
        some Rejection.embeddingScope := by
  rw [apiApp_exec]
  exact ⟨rfl, rfl, rfl, rfl, rfl⟩

/-! ## Tags -/

theorem find_map_replace_ne (tags : List Tag) (tag : Tag) (k : String) (hk : tag.key ≠ k) :
    (tags.map (fun t => if t.key = tag.key then tag else t)).find? (fun t => decide (t.key = k)) =
      tags.find? (fun t => decide (t.key = k)) := by
  induction tags with
  | nil => rfl
  | cons t ts ih =>
    by_cases h : t.key = tag.key
    · have hne : t.key ≠ k := fun e => hk (h ▸ e)
      simp [List.find?, h, hk, hne, ih]
    · simp only [List.map_cons, if_neg h, List.find?_cons, ih]

theorem priorityOf_upsert_ne (tags : List Tag) (tag : Tag) (k : String) (hk : tag.key ≠ k) :
    priorityOf (upsert tags tag) k = priorityOf tags k := by
  unfold priorityOf upsert
  split_ifs with hany
  · rw [find_map_replace_ne tags tag k hk]
  · simp [List.find?_append, hk]

theorem priorityOf_upsert_self (tags : List Tag) (tag : Tag) :
    priorityOf (upsert tags tag) tag.key = tag.priority := by
  unfold priorityOf upsert
  split_ifs with hany
  · induction tags with
    | nil => simp at hany
    | cons t ts ih =>
      by_cases h : t.key = tag.key
      · simp [List.find?, h]
      · have : ts.any (fun t => decide (t.key = tag.key)) = true := by
          simpa [h] using hany
        simpa [List.find?, h] using ih this
  · have hnone : tags.find? (fun t => decide (t.key = tag.key)) = none := by
      simpa using hany
    simp [List.find?_append, hnone]

theorem upsert_eq_self_of_holds {tags : List Tag} {tag : Tag} (h : Holds tags tag) :
    upsert tags tag = tags := by
  unfold upsert
  have hany : tags.any (fun t => decide (t.key = tag.key)) = true := by
    simp only [List.any_eq_true, decide_eq_true_eq]
    exact ⟨tag, h.1, rfl⟩
  rw [if_pos hany]
  conv_rhs => rw [← List.map_id tags]
  apply List.map_congr_left
  intro t ht
  by_cases hk : t.key = tag.key
  · simp [hk, h.2 t ht hk]
  · simp [hk]

theorem holds_upsert_self (tags : List Tag) (tag : Tag) : Holds (upsert tags tag) tag := by
  unfold upsert
  split_ifs with hany
  · simp only [List.any_eq_true, decide_eq_true_eq] at hany
    obtain ⟨u, hu, huk⟩ := hany
    constructor
    · exact List.mem_map.mpr ⟨u, hu, by simp [huk]⟩
    · intro t ht hk
      obtain ⟨v, _, rfl⟩ := List.mem_map.mp ht
      by_cases hv : v.key = tag.key
      · simp [hv]
      · simp [hv] at hk
  · simp only [List.any_eq_true, decide_eq_true_eq, not_exists, not_and] at hany
    constructor
    · simp
    · intro t ht hk
      rcases List.mem_append.mp ht with h | h
      · exact absurd hk (hany t h)
      · simpa using h

theorem holds_upsert_ne {tags : List Tag} {tag tag' : Tag} (hne : tag.key ≠ tag'.key)
    (h : Holds tags tag) : Holds (upsert tags tag') tag := by
  unfold upsert
  split_ifs with hany
  · constructor
    · exact List.mem_map.mpr ⟨tag, h.1, by simp [hne]⟩
    · intro t ht hk
      obtain ⟨v, hv, rfl⟩ := List.mem_map.mp ht
      by_cases hvk : v.key = tag'.key
      · simp only [hvk, if_true] at hk
        exact absurd hk.symm hne
      · simp only [hvk, if_false] at hk ⊢
        exact h.2 v hv hk
  · constructor
    · exact List.mem_append_left _ h.1
    · intro t ht hk
      rcases List.mem_append.mp ht with h' | h'
      · exact h.2 t h' hk
      · have : t = tag' := by simpa using h'
        subst this
        exact absurd hk.symm hne

theorem setTag_eq_self_of_settled {tags : List Tag} {tag : Tag} (h : Settled tags tag) :
    SetTag tags tag = tags := by
  unfold SetTag
  rcases h with h | ⟨_, h⟩
  · rw [if_neg (by omega)]
  · split_ifs
    · exact upsert_eq_self_of_holds h
    · rfl

theorem settled_setTag_self (tags : List Tag) (tag : Tag) : Settled (SetTag tags tag) tag := by
  unfold SetTag
  split_ifs with h
  · exact Or.inr ⟨priorityOf_upsert_self tags tag, holds_upsert_self tags tag⟩
  · exact Or.inl (by omega)

theorem settled_setTag_ne {tags : List Tag} {tag tag' : Tag} (hne : tag.key ≠ tag'.key)
    (h : Settled tags tag) : Settled (SetTag tags tag') tag := by
  unfold SetTag
  split_ifs with hc
  · have hp := priorityOf_upsert_ne tags tag' tag.key (Ne.symm hne)
    rcases h with h | ⟨h1, h2⟩
    · exact Or.inl (by rw [hp]; exact h)
    · exact Or.inr ⟨by rw [hp]; exact h1, holds_upsert_ne hne h2⟩
  · exact h

theorem setTag_four_idem (tags : List Tag) (a b c d : Tag)
    (hab : a.key ≠ b.key) (hac : a.key ≠ c.key) (had : a.key ≠ d.key)
    (hbc : b.key ≠ c.key) (hbd : b.key ≠ d.key) (hcd : c.key ≠ d.key) :
    [a, b, c, d].foldl SetTag ([a, b, c, d].foldl SetTag tags) =
      [a, b, c, d].foldl SetTag tags := by
  simp only [List.foldl_cons, List.foldl_nil]
  have ha : Settled (SetTag (SetTag (SetTag (SetTag tags a) b) c) d) a :=
    settled_setTag_ne had (settled_setTag_ne hac (settled_setTag_ne hab (settled_setTag_self _ _)))
  have hb : Settled (SetTag (SetTag (SetTag (SetTag tags a) b) c) d) b :=
    settled_setTag_ne hbd (settled_setTag_ne hbc (settled_setTag_self _ _))
  have hc : Settled (SetTag (SetTag (SetTag (SetTag tags a) b) c) d) c :=
    settled_setTag_ne hcd (settled_setTag_self _ _)
  have hd : Settled (SetTag (SetTag (SetTag (SetTag tags a) b) c) d) d :=
    settled_setTag_self _ _
  rw [setTag_eq_self_of_settled ha, setTag_eq_self_of_settled hb,
    setTag_eq_self_of_settled hc, setTag_eq_self_of_settled hd]

/-- Asking twice for the four tags of `addTags` leaves the tags asked for once. -/
theorem addTagsRequests_idem (props : PropsAPIResources) (init : List Tag) :
    (addTagsRequests props).foldl SetTag ((addTagsRequests props).foldl SetTag init) =
      (addTagsRequests props).foldl SetTag init :=
  setTag_four_idem init _ _ _ _
    (show "environment" ≠ "project" by decide) (show "environment" ≠ "author" by decide)
    (show "environment" ≠ "site" by decide) (show "project" ≠ "author" by decide)
    (show "project" ≠ "site" by decide) (show "author" ≠ "site" by decide)

theorem priorityOf_of_holds {tags : List Tag} {tag : Tag} (h : Holds tags tag) :
    priorityOf tags tag.key = tag.priority := by
  unfold priorityOf
  cases hf : tags.find? (fun t => decide (t.key = tag.key)) with
  | none =>
    have := List.find?_eq_none.mp hf tag h.1
    simp at this
  | some t =>
    have hk : t.key = tag.key := by simpa using List.find?_some hf
    rw [h.2 t (List.mem_of_find?_eq_some hf) hk]

/-- A request of lower priority leaves the tag a key holds in place. -/
theorem holds_setTag_of_lower {tags : List Tag} {tag r : Tag} (h : Holds tags tag)
    (hr : r.priority < tag.priority) : Holds (SetTag tags r) tag := by
  unfold SetTag
  by_cases hk : r.key = tag.key
  · rw [hk, priorityOf_of_holds h, if_neg (by omega)]
    exact h
  · split_ifs
    · exact holds_upsert_ne (Ne.symm hk) h
    · exact h

theorem setTag_of_fresh {tags : List Tag} {tag : Tag} (h : ∀ t ∈ tags, t.key ≠ tag.key) :
    SetTag tags tag = tags ++ [tag] := by
  have hfind : tags.find? (fun t => decide (t.key = tag.key)) = none :=
    List.find?_eq_none.mpr (fun t ht => by simpa using h t ht)
  have hany : tags.any (fun t => decide (t.key = tag.key)) = false := by
    simpa using h
  simp [SetTag, priorityOf, upsert, hfind, hany]

theorem foldl_setTag_of_fresh (reqs : List Tag) (hnd : (reqs.map Tag.key).Nodup)
    (init : List Tag) (h : ∀ t ∈ init, t.key ∉ reqs.map Tag.key) :
    reqs.foldl SetTag init = init ++ reqs := by
  induction reqs generalizing init with
  | nil => simp
  | cons r rs ih =>
    have hr : SetTag init r = init ++ [r] :=
      setTag_of_fresh (fun t ht e => h t ht (by simp [e]))
    rw [List.map_cons, List.nodup_cons] at hnd
    rw [List.foldl_cons, hr, ih hnd.2]
    · simp
    · intro t ht
      rcases List.mem_append.mp ht with h1 | h1
      · exact fun hm => h t h1 (by simp [hm])
      · rw [List.mem_singleton.mp h1]
        exact hnd.1

/-- On tags that hold none of the four keys, the four requests of `addTags` are
stored in order after the tags already there. -/
theorem addTagsRequests_of_fresh (props : PropsAPIResources) (init : List Tag)
    (h : ∀ t ∈ init, t.key ∉ addTagsKeys) :
    (addTagsRequests props).foldl SetTag init = init ++ addTagsRequests props :=
  foldl_setTag_of_fresh (addTagsRequests props)
    (show ["environment", "project", "author", "site"].Nodup by decide) init h

/-- A tag held at a priority above 4 survives the four requests of `addTags`. -/
theorem holds_addTagsRequests (props : PropsAPIResources) {init : List Tag} {tag : Tag}
    (h : Holds init tag) (hp : 4 < tag.priority) :
    Holds ((addTagsRequests props).foldl SetTag init) tag := by
  simp only [addTagsRequests, List.foldl_cons, List.foldl_nil]
  refine holds_setTag_of_lower (holds_setTag_of_lower (holds_setTag_of_lower
    (holds_setTag_of_lower h ?_) ?_) ?_) ?_ <;> simp only <;> omega

/-- The run that applies `addTags` once to a stack: the app, the stack and the
four `SetTag` calls; the SDK rejects none of them. -/
theorem tagStackOnce_requests (props : PropsAPIResources) :
    tagRequests (exec (tagStackOnce props)) 1 = addTagsRequests props :=
  rfl

theorem tagStackThrice_requests (props : PropsAPIResources) :
    tagRequests (exec (tagStackThrice props)) 1 =
      addTagsRequests props ++ addTagsRequests props ++ addTagsRequests props :=
  rfl

theorem initialTags_tagStackOnce (props : PropsAPIResources)
    (h : props.StackProps.Tags = []) : initialTags (exec (tagStackOnce props)) 1 = [] := by
  have hexec : (exec (tagStackOnce props))[1]? =
      some (Event.declare Kind.Stack (some 0) "ApiStack" props.StackProps.toProps) := rfl
  simp [initialTags, hexec, StackProps.toProps, h, List.lookup]

/-- C10 (as stated, refuted): a stack created with the tag environment = prod
keeps that value when `addTags` asks for environment = dev, so the tags after
`addTags` are not the four of the claim; and the run of `NewAPIResources`
itself reaches no `SetTag` call. -/
theorem C10_stack_tag_kept :
    taggedProps.Environment = "dev" ∧
    tagValue (tagsOf (exec (tagStackOnce taggedProps)) 1) "environment" =
      some "prod" ∧
    tagsOf (exec (tagStackOnce taggedProps)) 1 ≠ addTagsRequests taggedProps ∧
    tagRequests (exec (apiApp sampleRuntime taggedProps)) 1 = [] := by
  decide

/-- C10 (amended): every call of `addTags` asks its target for the four tags
environment = props.Environment, project = config.project, author =
config.author and site = props.ApiDomainName, at priorities 1 to 4; project and
author are the constants of the package-level `config`.  Applied to a stack
that holds none of the four keys the call stores exactly these four after the
tags already there, and on a stack created without tags they are all its tags;
a tag the target holds at a priority above 4 is kept.  For every earlier tag
state, three calls on one target leave the tags that one call leaves. -/
theorem C10_tags_applied_once (props : PropsAPIResources) :
    rejection (tagStackOnce props) = none ∧
    tagRequests (exec (tagStackOnce props)) 1 =
      [{ key := "environment", value := props.Environment, priority := 1,
         applyToLaunchedInstances := true },
       { key := "project", value := config.project, priority := 2,
         applyToLaunchedInstances := true },
       { key := "author", value := config.author, priority := 3,
         applyToLaunchedInstances := true },
       { key := "site", value := props.ApiDomainName, priority := 4,
         applyToLaunchedInstances := true }] ∧
    config = { project := "YourProjectName", author := "YourName" } ∧
    (∀ init : List Tag, (∀ t ∈ init, t.key ∉ addTagsKeys) →
      tagsAfter (exec (tagStackOnce props)) 1 init =
        init ++ tagRequests (exec (tagStackOnce props)) 1) ∧
    (props.StackProps.Tags = [] →
      tagsOf (exec (tagStackOnce props)) 1 = tagRequests (exec (tagStackOnce props)) 1) ∧
    (∀ (init : List Tag) (tag : Tag), Holds init tag → 4 < tag.priority →
      Holds (tagsAfter (exec (tagStackOnce props)) 1 init) tag) ∧
    tagRequests (exec (tagStackThrice props)) 1 =
      tagRequests (exec (tagStackOnce props)) 1 ++
        tagRequests (exec (tagStackOnce props)) 1 ++
        tagRequests (exec (tagStackOnce props)) 1 ∧
    (∀ init : List Tag,
      tagsAfter (exec (tagStackThrice props)) 1 init =
        tagsAfter (exec (tagStackOnce props)) 1 init) ∧
    tagsOf (exec (tagStackThrice props)) 1 = tagsOf (exec (tagStackOnce props)) 1 := by
  have hthrice : ∀ init : List Tag,
      tagsAfter (exec (tagStackThrice props)) 1 init =
        tagsAfter (exec (tagStackOnce props)) 1 init := by
    intro init
    unfold tagsAfter
    rw [tagStackThrice_requests, tagStackOnce_requests, List.foldl_append, List.foldl_append,
      addTagsRequests_idem, addTagsRequests_idem]
  have hinit : initialTags (exec (tagStackThrice props)) 1 =
      initialTags (exec (tagStackOnce props)) 1 := rfl
  refine ⟨rfl, rfl, rfl, ?_, ?_, ?_, rfl, hthrice, ?_⟩
  · intro init hfresh
    unfold tagsAfter
    rw [tagStackOnce_requests]
    exact addTagsRequests_of_fresh props init hfresh
  · intro htags
    unfold tagsOf tagsAfter
    rw [initialTags_tagStackOnce props htags, tagStackOnce_requests]
    exact addTagsRequests_of_fresh props [] (fun t ht => absurd ht (List.not_mem_nil t))
  · intro init tag hholds hp
    unfold tagsAfter
    rw [tagStackOnce_requests]
    exact holds_addTagsRequests props hholds hp
  · unfold tagsOf
    rw [hinit, hthrice]

/-- C10 (witness): on the sample props, whose stack is created without tags,
the tags of the stack after one `addTags` call are the four requested; and the
tag environment = prod held at priority 50 survives the call. -/
theorem C10_tags_applied_once_witness :
    (sampleProps.StackProps.Tags = [] ∧
      tagsOf (exec (tagStackOnce sampleProps)) 1 =
        tagRequests (exec (tagStackOnce sampleProps)) 1) ∧
    ((∀ t ∈ ([] : List Tag), t.key ∉ addTagsKeys) ∧
      tagsAfter (exec (tagStackOnce sampleProps)) 1 [] =
        [] ++ tagRequests (exec (tagStackOnce sampleProps)) 1) ∧
    (Holds [{ key := "environment", value := "prod", priority := 50,
              applyToLaunchedInstances := true }]
        { key := "environment", value := "prod", priority := 50,
          applyToLaunchedInstances := true } ∧
      4 < 50 ∧
      Holds (tagsAfter (exec (tagStackOnce sampleProps)) 1
          [{ key := "environment", value := "prod", priority := 50,
             applyToLaunchedInstances := true }])
        { key := "environment", value := "prod", priority := 50,
          applyToLaunchedInstances := true }) :=
  have hholds : Holds [{ key := "environment", value := "prod", priority := 50,
                         applyToLaunchedInstances := true }]
      { key := "environment", value := "prod", priority := 50,
        applyToLaunchedInstances := true } :=
    ⟨List.mem_singleton.mpr rfl, fun t ht _ => List.mem_singleton.mp ht⟩
  ⟨⟨rfl, (C10_tags_applied_once sampleProps).2.2.2.2.1 rfl⟩,
   ⟨fun t ht => absurd ht (List.not_mem_nil t),
    (C10_tags_applied_once sampleProps).2.2.2.1 []
      (fun t ht => absurd ht (List.not_mem_nil t))⟩,
   ⟨hholds, by decide,
    (C10_tags_applied_once sampleProps).2.2.2.2.2.1 _ _ hholds (by decide)⟩⟩

/-! ## The inline policy of the function's role -/

/-- C11 (evaluation): the `PolicyProps` that `createLambdaFunctionAndRole`
builds for the inline policy `userpool-policy` hold the log-group statement
alone: its actions are the three `logs:` actions, no action belongs to the
`cognito-idp` service, and none of its resources is an ARN of that service. -/
theorem C11_userpool_policy_statements (rt : Runtime) :
    policyId = "userpool-policy" ∧
    (userpoolPolicyProps rt).flatMap (fun p => p.2.statementsOf) =
      [createLogGroupStatement rt] ∧
    (createLogGroupStatement rt).Actions =
      ["logs:CreateLogGroup", "logs:CreateLogStream", "logs:PutLogEvents"] ∧
    (createLogGroupStatement rt).Actions.filter
      (fun a => "cognito-idp:".data.isPrefixOf a.data) = [] ∧
    "cognito-idp:DescribeUserPool" ∉ (createLogGroupStatement rt).Actions ∧
    (∀ rest : String,
      "arn:aws:cognito-idp:" ++ rest ∉ (createLogGroupStatement rt).Resources) := by
  refine ⟨rfl, rfl, rfl,
    (show ["logs:CreateLogGroup", "logs:CreateLogStream", "logs:PutLogEvents"].filter
      (fun a => "cognito-idp:".data.isPrefixOf a.data) = [] by decide),
    (show "cognito-idp:DescribeUserPool" ∉
      ["logs:CreateLogGroup", "logs:CreateLogStream", "logs:PutLogEvents"] by decide), ?_⟩
  intro rest hmem
  rw [logGroupResources_eq] at hmem
  have heq := List.mem_singleton.mp hmem
  rw [String.append_assoc, String.append_assoc, String.append_assoc, String.append_assoc,
    String.append_assoc] at heq
  exact append_ne_of_prefix "arn:aws:cognito-idp:" "arn:aws:logs:" rest _ 9
    (by decide) (by decide) (by decide) heq

/-- The rendering of a pointer ends in `)` and so is never a function name
that ends in `-lambda-save-resources`. -/
theorem sprintfPtrS_ne_name (addr : Nat) (environment : String) :
    sprintfPtrS addr ≠ environment ++ "-lambda-save-resources" := by
  unfold sprintfPtrS
  split_ifs
  · exact append_ne_of_suffix "%!s(*string=<nil>" environment ")" "-lambda-save-resources" 1
      (by decide) (by decide) (by decide)
  · exact append_ne_of_suffix ("%!s(*string=0x" ++ String.mk (Nat.toDigits 16 addr)) environment
      ")" "-lambda-save-resources" 1 (by decide) (by decide) (by decide)

/-- C12 (evaluation): the log-group statement built in
`createLambdaFunctionAndRole` has effect Allow and the three `logs:` actions,
but its single resource carries the rendering of the pointer that
`FunctionName()` returns, not the function's name, and so differs from the
specified ARN for every props.  With the sample runtime the resource ends in
`/aws/lambda/%!s(*string=0xc000014050):*`, where the specified one ends in
`/aws/lambda/dev-lambda-save-resources:*`. -/
theorem C12_log_group_resource (rt : Runtime) (props : PropsAPIResources) :
    (createLogGroupStatement rt).Effect = some Effect.ALLOW ∧
    (createLogGroupStatement rt).Actions =
      ["logs:CreateLogGroup", "logs:CreateLogStream", "logs:PutLogEvents"] ∧
    (createLogGroupStatement rt).Resources =
      ["arn:aws:logs:" ++ rt.region ++ ":" ++ rt.accountId ++ ":log-group:/aws/lambda/" ++
        sprintfPtrS rt.functionNameAddr ++ ":*"] ∧
    (createLogGroupStatement rt).Resources ≠ [specifiedLogGroupArn rt props] ∧
    functionName props = props.Environment ++ "-lambda-save-resources" ∧
    (createLogGroupStatement sampleRuntime).Resources =
      ["arn:aws:logs:eu-west-1:123456789012:log-group:/aws/lambda/" ++
        "%!s(*string=0xc000014050):*"] ∧
    specifiedLogGroupArn sampleRuntime sampleProps =
      "arn:aws:logs:eu-west-1:123456789012:log-group:/aws/lambda/dev-lambda-save-resources:*" := by
  refine ⟨rfl, rfl, rfl, ?_, rfl, by decide, by decide⟩
  intro heq
  have hs : "arn:aws:logs:" ++ rt.region ++ ":" ++ rt.accountId ++ ":log-group:/aws/lambda/" ++
      sprintfPtrS rt.functionNameAddr ++ ":*" = specifiedLogGroupArn rt props :=
    List.head_eq_of_cons_eq heq
  have hd := congrArg String.data hs
  simp only [specifiedLogGroupArn, functionName, String.data_append] at hd
  have hx := List.append_cancel_left (List.append_cancel_right hd)
  exact sprintfPtrS_ne_name rt.functionNameAddr props.Environment (String.ext hx)

/-! ## Subnet selections -/

/-- C13 (evaluation): in elasticache.go the ALB selects PUBLIC and the Auto
Scaling Group PRIVATE_WITH_EGRESS, both configured in MyVPC; in
rds-elasticache.go the RDS instance selects PRIVATE_ISOLATED while MyVPC
configures only PUBLIC and PRIVATE_WITH_EGRESS, so that selection names a
subnet type its VPC does not have, and the SDK rejects the instance.  In
vpc-endpoint.go the VPC properties configure all three subnet types and the
RDS instance selects PRIVATE_ISOLATED, but no run reaches the instance: `main`
is rejected at `NewConstruct(nil, nil)` and makes no selection, and
`NewVPCEndpointStack` under a stack is rejected at MyVPC, which names two
subnet groups `Private`. -/
theorem C13_subnet_selections (rt : Runtime) :
    subnetSelections (exec (Elasticache.CreateElastiCache rt)) =
      [("MyALB", 2, SubnetType.PUBLIC),
       ("MyAutoScalingGroup", 2, SubnetType.PRIVATE_WITH_EGRESS)] ∧
    configuredSubnetTypes (exec (Elasticache.CreateElastiCache rt)) 2 =
      [SubnetType.PUBLIC, SubnetType.PRIVATE_WITH_EGRESS] ∧
    (subnetSelections (exec (Elasticache.CreateElastiCache rt))).all
      (selectionConfigured (exec (Elasticache.CreateElastiCache rt))) = true ∧
    subnetSelections (exec RdsElasticache.CreateElastiCache) =
      [("MyRDS", 2, SubnetType.PRIVATE_ISOLATED)] ∧
    configuredSubnetTypes (exec RdsElasticache.CreateElastiCache) 2 =
      [SubnetType.PUBLIC, SubnetType.PRIVATE_WITH_EGRESS] ∧
    (subnetSelections (exec RdsElasticache.CreateElastiCache)).all
      (selectionConfigured (exec RdsElasticache.CreateElastiCache)) = false ∧
    rejection RdsElasticache.CreateElastiCache = some Rejection.subnetTypeNotConfigured ∧
    (subnetSelections (exec VpcEndpoint.main)).all
      (selectionConfigured (exec VpcEndpoint.main)) = true ∧
    subnetSelections (exec VpcEndpoint.main) = [] ∧
    rejection VpcEndpoint.main = some Rejection.nilScope ∧
    subnetSelections (exec VpcEndpoint.inStack) = [] ∧
    rejection VpcEndpoint.inStack = some Rejection.duplicateSubnetGroup ∧
    endpointVpcProps.flatMap (fun p => p.2.subnetTypes) =
      [SubnetType.PUBLIC, SubnetType.PRIVATE_WITH_EGRESS, SubnetType.PRIVATE_ISOLATED] ∧
    endpointVpcProps.flatMap (fun p => p.2.subnetNames) = ["Public", "Private", "Private"] ∧
    (∀ vpc : Construct, (rdsProps vpc).lookup "VpcSubnets" =
      some (PropVal.subnetSelection SubnetType.PRIVATE_ISOLATED)) := by
  refine ⟨?_, ?_, ?_, by decide, by decide, by decide, by decide, by decide, by decide,
    by decide, by decide, by decide, by decide, by decide, fun _ => rfl⟩
  all_goals
    rw [elastiCache_exec]
    rfl

/-! ## CORS headers of the OPTIONS method -/

end Templates
